import Mathlib

/-!
Verification of the FactGridBot repository against its natural-language
specification.  The Python sources under src/ are shallowly embedded as Lean
definitions; network effects (SPARQL endpoint, MediaWiki editing API) are
modelled as explicit oracle environments, and every call that the Python code
makes to the network is recorded in an event trace.
-/

namespace FactGridBot
/-- Kind of a wikibaseintegrator entity: ItemEntity, PropertyEntity, or any
other entity type (the isinstance checks in Wikidata.add_factgrid_id). -/
inductive EntityKind where
  | item
  | property
  | other
deriving Repr, DecidableEq

/-- One snak of a reference: a property id together with its value, as built by
datatypes.Item / datatypes.Time in Wikidata.add_factgrid_id. -/
structure Snak where
  prop_nr : String
  value : Option String
deriving Repr, DecidableEq

/-- One provenance reference: a list of snaks (wikibaseintegrator Reference). -/
structure Reference where
  snaks : List Snak
deriving Repr, DecidableEq

/-- One claim of an entity: the property id, the mainsnak datavalue
(claim.mainsnak.datavalue.get "value", absent values modelled as none) and the
attached references. -/
structure Claim where
  prop_nr : String
  mainsnakValue : Option String
  references : List Reference
deriving Repr, DecidableEq

/-- A wikibase entity: its id, its kind and its list of claims. -/
structure Entity where
  id : String
  kind : EntityKind
  claims : List Claim
deriving Repr, DecidableEq

/-- Python entity.claims.get(property_id): all claims of the entity whose
property id equals the given one, in order. -/
def Entity.claimsFor (e : Entity) (p : String) : List Claim :=
  e.claims.filter (fun c => c.prop_nr = p)

/-- Wikidata.FACTGRID_ITEM_ID (wikidata.py line 17). -/
def FACTGRID_ITEM_ID : String := "P8168"

/-- Wikidata.FACTGRID_PROPERTY_ID (wikidata.py line 18). -/
def FACTGRID_PROPERTY_ID : String := "P10787"

/-- The property id selected by the isinstance dispatch at the start of
Wikidata.add_factgrid_id (wikidata.py lines 66 to 73): ItemEntity uses
FACTGRID_ITEM_ID, PropertyEntity uses FACTGRID_PROPERTY_ID, any other type has
no property defined. -/
def propertyIdFor : EntityKind → Option String
  | .item => some FACTGRID_ITEM_ID
  | .property => some FACTGRID_PROPERTY_ID
  | .other => none

/-- The branch of Wikidata.add_factgrid_id that was taken, mirroring the log
statements of the Python code. -/
inductive AddBranch where
  | noFactgridId
  | unsupportedEntityType
  | multipleClaims
  | identicalValue
  | claimHasNoValue
  | differentValue
  | claimAdded
deriving Repr, DecidableEq

/-- The provenance reference built in wikidata.py lines 92 to 96: stated in
FactGrid (P248 = Q90405608) plus retrieved now (P813). -/
def statedInReference : Reference :=
  ⟨[⟨"P248", some "Q90405608"⟩, ⟨"P813", some "now"⟩]⟩

/-- Wikidata.add_factgrid_id (wikidata.py lines 55 to 98).  Returns the
(possibly) updated entity together with the branch taken.  The Python code
mutates the entity in place and returns None; the embedding returns the new
entity.  No branch raises, matching the Python code, which only logs. -/
def add_factgrid_id (entity : Entity) (factgrid_id : Option String) :
    Entity × AddBranch :=
  match factgrid_id with
  | none => (entity, .noFactgridId)
  | some fid =>
    match propertyIdFor entity.kind with
    | none => (entity, .unsupportedEntityType)
    | some property_id =>
      match entity.claimsFor property_id with
      | [] =>
        let new_claim : Claim := ⟨property_id, some fid, [statedInReference]⟩
        ({ entity with claims := entity.claims ++ [new_claim] }, .claimAdded)
      | claim :: rest =>
        if rest.length + 1 > 1 then (entity, .multipleClaims)
        else if claim.mainsnakValue = some fid then (entity, .identicalValue)
        else if claim.mainsnakValue = none then (entity, .claimHasNoValue)
        else (entity, .differentValue)

end FactGridBot

namespace FactGridBot

/-- C4 helper: the claim built by wikidata.py line 97. -/
def newFactgridClaim (pid fid : String) : Claim :=
  ⟨pid, some fid, [statedInReference]⟩

/-- The SyncErrorRecord pydantic model (models/error.py lines 5 to 12). -/
structure SyncErrorRecord where
  wd_id : String
  factgrid_id : String
  error_message : String
deriving Repr, DecidableEq

/-- Network operations performed by the write-back path, recorded as a trace. -/
inductive NetEvent where
  | fetchItem (wd_id : String)
  | writeItem (wd_id : String)
deriving Repr, DecidableEq

/-- Modelled from the spec: Wikibase.get_item and Wikibase.write_item live in
wikibase.py, which is not among the source files.  Per spec section 4.1 they
read and write a full entity through the remote editing API and fail with a
transport/validation error; write_item additionally takes the edit summary,
the fix_known_issues flag and the max_retries bound (default None).  The
remote API is modelled as an oracle environment. -/
structure SyncEnv where
  getItem : String → Except String Entity
  writeItem : Entity → String → Bool → Option Nat → Except String Unit

/-- The FactGrid entity URI base (factgrid.py line 16). -/
def factgridEntityUriBase : String := "https://database.factgrid.de/entity/"

/-- Modelled from the spec: Wikibase.get_entity_id lives in wikibase.py, which
is not among the source files.  Per spec section 4.2, identity translation is
pure string prefix substitution, so the entity id is the identifier with the
FactGrid entity URI base removed. -/
def FactGridClient.get_entity_id (s : String) : String :=
  if s.startsWith factgridEntityUriBase then s.drop factgridEntityUriBase.length else s

/-- The f-string of the malformed-mapping guard (bot.py line 220, identical in
both bot modules, typo included). -/
def mappingErrorMessage (wd_id factgrid_id : String) : String :=
  "Mapping error both ids bust be defined Wikidata:" ++ wd_id ++ " FactGrid:" ++ factgrid_id

/-- Bot._sync_wd_with_factgrid_id of factgridbot (bot.py lines 204 to 234).
The guard rejects a pair with an empty id without touching the network; then
the entity is fetched (a fetch failure is NOT caught and escapes as
Except.error), the FactGrid id is added locally, and only write_item sits
inside the try/except that converts a failure into a SyncErrorRecord.
max_retries is threaded through to write_item. -/
def Bot.sync_wd_with_factgrid_id (env : SyncEnv) (wd_id factgrid_id : String)
    (fix_known_issues : Bool) (max_retries : Option Nat) :
    Except String (Option SyncErrorRecord) × List NetEvent :=
  if factgrid_id = "" ∨ wd_id = "" then
    (.ok (some ⟨wd_id, factgrid_id, mappingErrorMessage wd_id factgrid_id⟩), [])
  else
    match env.getItem wd_id with
    | .error ex => (.error ex, [.fetchItem wd_id])
    | .ok wd_item =>
      let written := (add_factgrid_id wd_item (some (FactGridClient.get_entity_id factgrid_id))).1
      match env.writeItem written "adds FactGrid ID" fix_known_issues max_retries with
      | .ok _ => (.ok none, [.fetchItem wd_id, .writeItem wd_id])
      | .error ex => (.ok (some ⟨wd_id, factgrid_id, ex⟩), [.fetchItem wd_id, .writeItem wd_id])

/-- Bot._sync_wd_with_factgrid_id of factgridsyncwdbot (bot.py lines 213 to
236).  Identical to the factgridbot version except that its signature has no
max_retries parameter: write_item is called with the default (None). -/
def SyncWdBot.sync_wd_with_factgrid_id (env : SyncEnv) (wd_id factgrid_id : String)
    (fix_known_issues : Bool) :
    Except String (Option SyncErrorRecord) × List NetEvent :=
  if factgrid_id = "" ∨ wd_id = "" then
    (.ok (some ⟨wd_id, factgrid_id, mappingErrorMessage wd_id factgrid_id⟩), [])
  else
    match env.getItem wd_id with
    | .error ex => (.error ex, [.fetchItem wd_id])
    | .ok wd_item =>
      let written := (add_factgrid_id wd_item (some (FactGridClient.get_entity_id factgrid_id))).1
      match env.writeItem written "adds FactGrid ID" fix_known_issues none with
      | .ok _ => (.ok none, [.fetchItem wd_id, .writeItem wd_id])
      | .error ex => (.ok (some ⟨wd_id, factgrid_id, ex⟩), [.fetchItem wd_id, .writeItem wd_id])

/-- The result-collection loop of Bot.sync_wd_with_factgrid_ids (bot.py lines
194 to 201): future.result() re-raises an uncaught worker exception (so an
Except.error aborts the collection), SyncErrorRecord results are appended in
completion order, which with the single worker is submission order. -/
def collectResults : List (Except String (Option SyncErrorRecord)) →
    Except String (List SyncErrorRecord)
  | [] => .ok []
  | .error e :: _ => .error e
  | .ok none :: rest => collectResults rest
  | .ok (some r) :: rest => (collectResults rest).map (fun l => r :: l)

/-- Bot.sync_wd_with_factgrid_ids of factgridbot (bot.py lines 166 to 202).
All pairs are submitted to the single-worker executor (so every pair is
processed and its network events happen, in order) before results are
collected. -/
def Bot.sync_wd_with_factgrid_ids (env : SyncEnv) (mappings : List (String × String))
    (fix_known_issues : Bool) (max_retries : Option Nat) :
    Except String (List SyncErrorRecord) × List NetEvent :=
  let results := mappings.map
    (fun p => Bot.sync_wd_with_factgrid_id env p.1 p.2 fix_known_issues max_retries)
  (collectResults (results.map Prod.fst), (results.map Prod.snd).flatten)

/-- The per-pair failure record of the factgridbot write-back: the
SyncErrorRecord a pair contributes, if any (none when the pair succeeds or
when its uncaught exception aborts the batch). -/
def Bot.pairFailure (env : SyncEnv) (fix_known_issues : Bool) (max_retries : Option Nat)
    (p : String × String) : Option SyncErrorRecord :=
  match (Bot.sync_wd_with_factgrid_id env p.1 p.2 fix_known_issues max_retries).1 with
  | .ok o => o
  | .error _ => none

/-- An environment whose entity fetch always fails with a transport error. -/
def envFetchFail : SyncEnv :=
  { getItem := fun _ => .error "boom",
    writeItem := fun _ _ _ _ => .ok () }

/-- An environment whose fetches succeed and whose writes always fail. -/
def envWriteFail : SyncEnv :=
  { getItem := fun w => .ok ⟨w, .item, []⟩,
    writeItem := fun _ _ _ _ => .error "denied" }

/-- Python call semantics for the two _sync_wd_with_factgrid_id signatures:
factgridbot (bot.py lines 204 to 210) declares max_retries with default None,
so a call may either specify it (some mr) or leave it unspecified (none). -/
def Bot.call_sync_wd_with_factgrid_id (env : SyncEnv) (wd_id factgrid_id : String)
    (fix_known_issues : Bool) (max_retries : Option (Option Nat)) :
    Except String (Except String (Option SyncErrorRecord) × List NetEvent) :=
  .ok (Bot.sync_wd_with_factgrid_id env wd_id factgrid_id fix_known_issues
    (max_retries.getD none))

/-- Python call semantics for factgridsyncwdbot's _sync_wd_with_factgrid_id
(bot.py lines 213 to 215): its signature declares no max_retries parameter, so
a call that specifies that keyword raises TypeError before the body runs,
while a call that leaves it unspecified runs the body. -/
def SyncWdBot.call_sync_wd_with_factgrid_id (env : SyncEnv) (wd_id factgrid_id : String)
    (fix_known_issues : Bool) (max_retries : Option (Option Nat)) :
    Except String (Except String (Option SyncErrorRecord) × List NetEvent) :=
  match max_retries with
  | none => .ok (SyncWdBot.sync_wd_with_factgrid_id env wd_id factgrid_id fix_known_issues)
  | some _ =>
    .error "TypeError: _sync_wd_with_factgrid_id() got an unexpected keyword argument max_retries"

/-- An environment whose write behaviour depends on the max_retries bound. -/
def envRetrySensitive : SyncEnv :=
  { getItem := fun w => .ok ⟨w, .item, []⟩,
    writeItem := fun _ _ _ mr => if mr = some 3 then .error "retry limit" else .ok () }

/-- One tabular result row of the query endpoint: variable name to value. -/
abbrev SparqlRow := List (String × String)

/-- Modelled from the spec: the remote query service is an external
collaborator; per spec section 6 it accepts graph-pattern queries with a
VALUES clause for batched identifier lookups.  A VALUES query is evaluated
once per bound value, so its answer over a list of values is the
concatenation of the rows each value contributes. -/
structure ValuesQueryEndpoint where
  rowsOf : String → List SparqlRow

/-- The answer of a single (unchunked) VALUES query over all given values. -/
def runValuesQuery (ep : ValuesQueryEndpoint) (values : List String) : List SparqlRow :=
  values.flatMap ep.rowsOf

/-- Splitting a list into consecutive chunks of at most c elements (the
chunking of Wikibase.execute_values_query_in_chunks). -/
def chunkList {α : Type} (c : Nat) (xs : List α) : List (List α) :=
  match xs with
  | [] => []
  | x :: rest =>
    if h2 : c = 0 then [x :: rest]
    else (x :: rest).take c :: chunkList c ((x :: rest).drop c)
termination_by xs.length
decreasing_by
  have hcpos : 0 < c := Nat.pos_of_ne_zero h2
  simp only [List.length_drop, List.length_cons]
  omega

/-- Modelled from the spec: substitution of one chunk for the query template's
named parameter (Python string.Template), the chunk's values joined. -/
def substituteValues (query_template param_name : String) (chunk : List String) : String :=
  query_template.replace ("$" ++ param_name) (String.intercalate "\n" chunk)

/-- Modelled from the spec: Wikibase.execute_values_query_in_chunks lives in
wikibase.py, which is not among the source files.  Per spec section 4.1 it
splits values into chunks of at most chunk_size, substitutes each chunk into
the query template's named parameter, issues one request per chunk and
concatenates the results.  The embedding returns the issued queries together
with the concatenated rows. -/
def execute_values_query_in_chunks (ep : ValuesQueryEndpoint)
    (query_template param_name : String) (values : List String) (chunk_size : Nat) :
    List String × List SparqlRow :=
  let chs := chunkList chunk_size values
  (chs.map (substituteValues query_template param_name),
   (chs.map (fun ch => runValuesQuery ep ch)).flatten)

/-- A concrete endpoint answering one row per value. -/
def epOneRow : ValuesQueryEndpoint := ⟨fun v => [[("wd_id", v)]]⟩

/-- Python str.replace(old, new): replace every occurrence of old in the
string, scanning left to right without overlap.  Strings are embedded as char
lists.  The source only calls it with a nonempty old; with an empty old this
model leaves the string unchanged. -/
def replaceAll (old new : List Char) : List Char → List Char
  | [] => []
  | c :: rest =>
    if h : old ≠ [] ∧ old <+: (c :: rest) then
      new ++ replaceAll old new ((c :: rest).drop old.length)
    else
      c :: replaceAll old new rest
termination_by s => s.length
decreasing_by
  · have : old.length ≠ 0 := fun h0 => h.1 (List.length_eq_zero.mp h0)
    simp only [List.length_drop, List.length_cons]
    omega
  · simp only [List.length_cons]
    omega

/-- The wiki page URL base of factgrid.py lines 157 and 166. -/
def wikiPageBase : List Char := "https://www.wikidata.org/wiki/".data

/-- The entity URI base of factgrid.py lines 156 and 165. -/
def wdEntityBase : List Char := "http://www.wikidata.org/entity/".data

/-- FactGrid.get_wikidata_entity_id_from_sitelink (factgrid.py lines 151 to
158): Python str.replace of the wiki page base by the entity URI base. -/
def get_wikidata_entity_id_from_sitelink (sitelink_url : List Char) : List Char :=
  replaceAll wikiPageBase wdEntityBase sitelink_url

/-- FactGrid.get_wikidata_sitelink_from_entity_id (factgrid.py lines 160 to
167): Python str.replace of the entity URI base by the wiki page base. -/
def get_wikidata_sitelink_from_entity_id (entity_id : List Char) : List Char :=
  replaceAll wdEntityBase wikiPageBase entity_id

/-- One step of the defaultdict(list) loops of bot.py lines 264 to 269:
append the id to the group of its label, creating the group at the end on
first occurrence (Python dict insertion order). -/
def insertGrouped : List (String × List String) → String → String →
    List (String × List String)
  | [], l, i => [(l, [i])]
  | (k, is) :: rest, l, i =>
    if k = l then (k, is ++ [i]) :: rest else (k, is) :: insertGrouped rest l i

/-- Grouping of (id, label) pairs by label: keys in first-occurrence order,
each group's ids in encounter order (the defaultdict(list) of bot.py). -/
def groupByLabel (ps : List (String × String)) : List (String × List String) :=
  ps.foldl (fun acc p => insertGrouped acc p.2 p.1) []

/-- Python dict.get(label, []) over the grouped association list. -/
def lookupGroup : List (String × List String) → String → List String
  | [], _ => []
  | g :: rest, l => if g.1 = l then g.2 else lookupGroup rest l

/-- Wikidata.get_entities_by_labels (wikidata.py lines 100 to 130): the VALUES
query returns, with their label, the entities of the class whose label is
among the given labels. -/
def get_entities_by_labels (classItems : List (String × String))
    (labels : List String) : List (String × String) :=
  classItems.filter (fun p => p.2 ∈ labels)

/-- Modelled from the spec and the queries of the source: the inputs of
Bot.get_label_matches_by_entity_class.  factgridLabels is the items() view of
the label map of the source-A items missing a cross-reference (the
composition of FactGrid.get_entities_with_missing_wikidata_id with
get_entity_label, both remote queries); wikidataClassItems lists the
source-B items of the corresponding class with their labels. -/
structure LabelMatchEnv where
  factgridLabels : List (String × String)
  wikidataClassItems : List (String × String)

/-- Bot.get_label_matches_by_entity_class (bot.py lines 236 to 275): group
both sides by label and keep, for each label appearing on the Wikidata side,
the triple (label, wikidata ids, factgrid ids) when the factgrid group is
nonempty. -/
def get_label_matches_by_entity_class (env : LabelMatchEnv) :
    List (String × List String × List String) :=
  let queried := env.factgridLabels.map Prod.snd
  let wdPairs := get_entities_by_labels env.wikidataClassItems queried
  let labelToFactGrid := groupByLabel env.factgridLabels
  let labelToWd := groupByLabel wdPairs
  labelToWd.filterMap (fun lw =>
    match lookupGroup labelToFactGrid lw.1 with
    | [] => none
    | fgIds => some (lw.1, lw.2, fgIds))

/-- The inputs of end-to-end scenario C: class A items labelled Smith and
Jones missing the cross-reference, class B items labelled Smith only. -/
def envSmithJones : LabelMatchEnv :=
  ⟨[("FQ1", "Smith"), ("FQ2", "Jones")], [("WQ1", "Smith")]⟩

/-- C3: an entity carrying at least one claim for the back-reference property
(either a single claim with a different value, or several claims) is left
completely unchanged by add_factgrid_id, which returns normally. -/
theorem add_factgrid_id_preserves_conflicting
    (e : Entity) (fid pid : String)
    (hpid : propertyIdFor e.kind = some pid)
    (hshape : (∃ c, e.claimsFor pid = [c] ∧ c.mainsnakValue ≠ some fid) ∨
      1 < (e.claimsFor pid).length) :
    (add_factgrid_id e (some fid)).1 = e ∧
    (add_factgrid_id e (some fid)).1.claims = e.claims := by
  have hmain : (add_factgrid_id e (some fid)).1 = e := by
    rcases hshape with ⟨c, hc, hv⟩ | hlen
    · rcases hval : c.mainsnakValue with _ | v
      · simp [add_factgrid_id, hpid, hc, hval]
      · rw [hval] at hv
        simp [add_factgrid_id, hpid, hc, hval, hv]
    · rcases hcs : e.claimsFor pid with _ | ⟨c, rest⟩
      · rw [hcs] at hlen; simp at hlen

      · rw [hcs] at hlen
        simp only [List.length_cons] at hlen
        have h0 : 0 < rest.length := by omega
        simp [add_factgrid_id, hpid, hcs, h0]
  exact ⟨hmain, by rw [hmain]⟩

/-- Witness for C3: a concrete item entity with a single claim carrying a
different FactGrid id is returned unchanged. -/
theorem add_factgrid_id_preserves_conflicting_witness :
    (add_factgrid_id ⟨"Q1", .item, [⟨"P8168", some "Q999", []⟩]⟩ (some "Q7")).1 =
      ⟨"Q1", .item, [⟨"P8168", some "Q999", []⟩]⟩ ∧
    (add_factgrid_id ⟨"Q1", .item, [⟨"P8168", some "Q999", []⟩]⟩ (some "Q7")).1.claims =
      [⟨"P8168", some "Q999", []⟩] :=
  add_factgrid_id_preserves_conflicting
    ⟨"Q1", .item, [⟨"P8168", some "Q999", []⟩]⟩ "Q7" "P8168" rfl
    (Or.inl ⟨⟨"P8168", some "Q999", []⟩, by decide⟩)

/-- C4: on an entity with no existing claim for the back-reference property,
add_factgrid_id appends exactly one new claim for that property whose value is
the given FactGrid id, carrying exactly one provenance reference containing a
stated-in snak (P248 = Q90405608) and a retrieval-timestamp snak (P813). -/
theorem add_factgrid_id_absent_adds_claim
    (e : Entity) (fid pid : String)
    (hpid : propertyIdFor e.kind = some pid)
    (habsent : e.claimsFor pid = []) :
    (add_factgrid_id e (some fid)).1.claims = e.claims ++ [newFactgridClaim pid fid] ∧
    (add_factgrid_id e (some fid)).1.claimsFor pid = [newFactgridClaim pid fid] ∧
    (newFactgridClaim pid fid).mainsnakValue = some fid ∧
    (newFactgridClaim pid fid).references = [statedInReference] ∧
    (⟨"P248", some "Q90405608"⟩ : Snak) ∈ statedInReference.snaks ∧
    (⟨"P813", some "now"⟩ : Snak) ∈ statedInReference.snaks := by
  have hclaims : (add_factgrid_id e (some fid)).1.claims
      = e.claims ++ [newFactgridClaim pid fid] := by
    simp [add_factgrid_id, hpid, habsent, newFactgridClaim]
  refine ⟨hclaims, ?_, rfl, rfl, by simp [statedInReference], by simp [statedInReference]⟩
  have habsent' : e.claims.filter (fun c => c.prop_nr = pid) = [] := habsent
  simp [Entity.claimsFor, hclaims, List.filter_append, habsent', newFactgridClaim]

/-- Witness for C4: adding a FactGrid id to a concrete item entity with no
existing back-reference claim. -/
theorem add_factgrid_id_absent_adds_claim_witness :
    (add_factgrid_id ⟨"Q1", .item, []⟩ (some "Q7")).1.claims
        = [] ++ [newFactgridClaim "P8168" "Q7"] ∧
    (add_factgrid_id ⟨"Q1", .item, []⟩ (some "Q7")).1.claimsFor "P8168"
        = [newFactgridClaim "P8168" "Q7"] ∧
    (newFactgridClaim "P8168" "Q7").mainsnakValue = some "Q7" ∧
    (newFactgridClaim "P8168" "Q7").references = [statedInReference] ∧
    (⟨"P248", some "Q90405608"⟩ : Snak) ∈ statedInReference.snaks ∧
    (⟨"P813", some "now"⟩ : Snak) ∈ statedInReference.snaks :=
  add_factgrid_id_absent_adds_claim ⟨"Q1", .item, []⟩ "Q7" "P8168" rfl rfl

/-- C5: on an entity that already carries the back-reference claim with exactly
the requested value, add_factgrid_id takes the present-with-identical-value
branch and leaves the entity, in particular its claims, exactly as before. -/
theorem add_factgrid_id_identical_value_noop
    (e : Entity) (fid pid : String) (c : Claim)
    (hpid : propertyIdFor e.kind = some pid)
    (hc : e.claimsFor pid = [c])
    (hval : c.mainsnakValue = some fid) :
    add_factgrid_id e (some fid) = (e, AddBranch.identicalValue) := by
  simp [add_factgrid_id, hpid, hc, hval]

/-- Witness for C5: running add_factgrid_id on the entity produced by a first
run (which added the claim) takes the identical-value branch and changes
nothing. -/
theorem add_factgrid_id_identical_value_noop_witness :
    add_factgrid_id ((add_factgrid_id ⟨"Q1", .item, []⟩ (some "Q7")).1) (some "Q7")
      = ((add_factgrid_id ⟨"Q1", .item, []⟩ (some "Q7")).1, AddBranch.identicalValue) :=
  add_factgrid_id_identical_value_noop
    ((add_factgrid_id ⟨"Q1", .item, []⟩ (some "Q7")).1) "Q7" "P8168"
    (newFactgridClaim "P8168" "Q7") rfl (by decide) rfl

/-- C9: when the FactGrid id is None, or the entity is neither an item nor a
property entity, add_factgrid_id returns normally with the entity completely
unchanged. -/
theorem add_factgrid_id_guard_noop
    (e : Entity) (fid? : Option String)
    (h : fid? = none ∨ e.kind = .other) :
    (add_factgrid_id e fid?).1 = e := by
  rcases h with h | h
  · simp [add_factgrid_id, h]
  · rcases fid? with _ | fid
    · simp [add_factgrid_id]
    · simp [add_factgrid_id, propertyIdFor, h]

/-- Witness for C9: both guard cases at concrete inputs. -/
theorem add_factgrid_id_guard_noop_witness :
    (add_factgrid_id ⟨"Q1", .item, []⟩ none).1 = ⟨"Q1", .item, []⟩ ∧
    (add_factgrid_id ⟨"L5", .other, []⟩ (some "Q7")).1 = ⟨"L5", .other, []⟩ :=
  ⟨add_factgrid_id_guard_noop ⟨"Q1", .item, []⟩ none (Or.inl rfl),
   add_factgrid_id_guard_noop ⟨"L5", .other, []⟩ (some "Q7") (Or.inr rfl)⟩

/-- When every entity fetch succeeds, no single pair raises: its outcome is ok,
holding exactly its pairFailure record. -/
theorem Bot.pair_outcome_ok (env : SyncEnv) (fix : Bool) (mr : Option Nat)
    (hfetch : ∀ w, ∃ it, env.getItem w = Except.ok it) (w f : String) :
    (Bot.sync_wd_with_factgrid_id env w f fix mr).1
      = Except.ok (Bot.pairFailure env fix mr (w, f)) := by
  obtain ⟨it, hit⟩ := hfetch w
  by_cases hg : f = "" ∨ w = ""
  · simp [Bot.sync_wd_with_factgrid_id, Bot.pairFailure, hg]
  · rcases hw : env.writeItem
        (add_factgrid_id it (some (FactGridClient.get_entity_id f))).1
        "adds FactGrid ID" fix mr with ex | u
    · simp [Bot.sync_wd_with_factgrid_id, Bot.pairFailure, hg, hit, hw]
    · simp [Bot.sync_wd_with_factgrid_id, Bot.pairFailure, hg, hit, hw]

/-- A pair's failure record, when present, carries that pair's identifiers. -/
theorem Bot.pairFailure_ids (env : SyncEnv) (fix : Bool) (mr : Option Nat)
    (w f : String) (r : SyncErrorRecord)
    (h : Bot.pairFailure env fix mr (w, f) = some r) :
    r.wd_id = w ∧ r.factgrid_id = f := by
  unfold Bot.pairFailure Bot.sync_wd_with_factgrid_id at h
  by_cases hg : f = "" ∨ w = ""
  · simp [hg] at h
    rw [← h]
    exact ⟨rfl, rfl⟩
  · simp only [hg, if_false, if_neg hg] at h
    rcases hit : env.getItem w with ex | it
    · rw [hit] at h; simp at h
    · rw [hit] at h
      simp only at h
      rcases hw : env.writeItem
          (add_factgrid_id it (some (FactGridClient.get_entity_id f))).1
          "adds FactGrid ID" fix mr with ex | u
      · rw [hw] at h
        simp at h
        rw [← h]
        exact ⟨rfl, rfl⟩
      · rw [hw] at h; simp at h

/-- Collecting a list of non-raising outcomes returns the present records. -/
theorem collectResults_map_ok {α : Type} (f : α → Option SyncErrorRecord) (l : List α) :
    collectResults (l.map (fun p => Except.ok (f p))) = Except.ok (l.filterMap f) := by
  induction l with
  | nil => rfl
  | cons p rest ih =>
    cases hf : f p <;>
      simp [collectResults, ih, List.filterMap_cons, hf, Except.map]

/-- C1 amended: when every entity fetch succeeds, no exception escapes
sync_wd_with_factgrid_ids; every pair is processed (the full network trace is
the concatenation of the per-pair traces, in submission order); the returned
list is exactly the failure records of the failed pairs in order; each record
carries its pair's identifiers; and a write failure yields the record with
that pair's ids and the exception's message. -/
theorem sync_wd_with_factgrid_ids_captures_write_failures
    (env : SyncEnv) (mappings : List (String × String)) (fix : Bool) (mr : Option Nat)
    (hfetch : ∀ w, ∃ it, env.getItem w = Except.ok it) :
    (Bot.sync_wd_with_factgrid_ids env mappings fix mr).1
      = Except.ok (mappings.filterMap (Bot.pairFailure env fix mr)) ∧
    (∀ r ∈ mappings.filterMap (Bot.pairFailure env fix mr),
      ∃ p ∈ mappings, r.wd_id = p.1 ∧ r.factgrid_id = p.2) ∧
    (Bot.sync_wd_with_factgrid_ids env mappings fix mr).2
      = (mappings.map
          (fun p => (Bot.sync_wd_with_factgrid_id env p.1 p.2 fix mr).2)).flatten ∧
    (∀ w f it ex, w ≠ "" → f ≠ "" → env.getItem w = Except.ok it →
      env.writeItem (add_factgrid_id it (some (FactGridClient.get_entity_id f))).1
          "adds FactGrid ID" fix mr = Except.error ex →
      Bot.pairFailure env fix mr (w, f) = some ⟨w, f, ex⟩) := by
  refine ⟨?_, ?_, ?_, ?_⟩
  · have hmap : mappings.map
        (fun p => (Bot.sync_wd_with_factgrid_id env p.1 p.2 fix mr).1)
        = mappings.map (fun p => Except.ok (Bot.pairFailure env fix mr p)) := by
      apply List.map_congr_left
      intro p _
      exact Bot.pair_outcome_ok env fix mr hfetch p.1 p.2
    show collectResults ((mappings.map
        (fun p => Bot.sync_wd_with_factgrid_id env p.1 p.2 fix mr)).map Prod.fst) = _
    rw [List.map_map]
    show collectResults (mappings.map
        (fun p => (Bot.sync_wd_with_factgrid_id env p.1 p.2 fix mr).1)) = _
    rw [hmap, collectResults_map_ok]
  · intro r hr
    obtain ⟨p, hp, hpr⟩ := List.mem_filterMap.mp hr
    exact ⟨p, hp, Bot.pairFailure_ids env fix mr p.1 p.2 r hpr⟩
  · show ((mappings.map
        (fun p => Bot.sync_wd_with_factgrid_id env p.1 p.2 fix mr)).map Prod.snd).flatten = _
    rw [List.map_map]
    rfl
  · intro w f it ex hw hf hit hwr
    have hg : ¬ (f = "" ∨ w = "") := by
      rintro (h | h)
      · exact hf h
      · exact hw h
    simp [Bot.pairFailure, Bot.sync_wd_with_factgrid_id, hg, hit, hwr]

/-- C1 counterexample: with a failing entity fetch, the exception raised by
get_item is not caught by _sync_wd_with_factgrid_id (only write_item sits in
the try/except), so future.result() re-raises it inside
sync_wd_with_factgrid_ids: the exception escapes and no record list is
returned, contradicting the claim that a failure while processing any single
pair is captured as a SyncErrorRecord. -/
theorem sync_wd_with_factgrid_ids_fetch_failure_escapes :
    (Bot.sync_wd_with_factgrid_ids envFetchFail [("Q1", "Q7")] false none).1
      = Except.error "boom" := by
  simp [Bot.sync_wd_with_factgrid_ids, Bot.sync_wd_with_factgrid_id,
    envFetchFail, collectResults]

/-- Witness for the amended C1: a one-pair batch against an environment whose
fetch succeeds and whose write fails. -/
theorem sync_wd_with_factgrid_ids_captures_write_failures_witness :
    (Bot.sync_wd_with_factgrid_ids envWriteFail [("Q1", "Q7")] false none).1
      = Except.ok ([("Q1", "Q7")].filterMap (Bot.pairFailure envWriteFail false none)) ∧
    (∀ r ∈ [("Q1", "Q7")].filterMap (Bot.pairFailure envWriteFail false none),
      ∃ p ∈ [("Q1", "Q7")], r.wd_id = p.1 ∧ r.factgrid_id = p.2) ∧
    (Bot.sync_wd_with_factgrid_ids envWriteFail [("Q1", "Q7")] false none).2
      = ([("Q1", "Q7")].map
          (fun p => (Bot.sync_wd_with_factgrid_id envWriteFail p.1 p.2 false none).2)).flatten ∧
    (∀ w f it ex, w ≠ "" → f ≠ "" → envWriteFail.getItem w = Except.ok it →
      envWriteFail.writeItem
          (add_factgrid_id it (some (FactGridClient.get_entity_id f))).1
          "adds FactGrid ID" false none = Except.error ex →
      Bot.pairFailure envWriteFail false none (w, f) = some ⟨w, f, ex⟩) :=
  sync_wd_with_factgrid_ids_captures_write_failures envWriteFail [("Q1", "Q7")]
    false none (fun w => ⟨⟨w, .item, []⟩, rfl⟩)

/-- C2: a pair with an empty identifier on either side is rejected by the
guard of _sync_wd_with_factgrid_id in both bot modules: exactly one
SyncErrorRecord carrying that pair's identifiers is returned and the network
trace is empty (no entity fetch, no write, hence also no claim addition). -/
theorem sync_wd_with_factgrid_id_empty_id_guard
    (env : SyncEnv) (w f : String) (fix : Bool) (mr : Option Nat)
    (h : f = "" ∨ w = "") :
    Bot.sync_wd_with_factgrid_id env w f fix mr
      = (Except.ok (some ⟨w, f, mappingErrorMessage w f⟩), []) ∧
    SyncWdBot.sync_wd_with_factgrid_id env w f fix
      = (Except.ok (some ⟨w, f, mappingErrorMessage w f⟩), []) := by
  constructor <;>
    simp [Bot.sync_wd_with_factgrid_id, SyncWdBot.sync_wd_with_factgrid_id, h]

/-- Witness for C2: a pair with an empty Wikidata id. -/
theorem sync_wd_with_factgrid_id_empty_id_guard_witness :
    Bot.sync_wd_with_factgrid_id envWriteFail "" "Q7" false none
      = (Except.ok (some ⟨"", "Q7", mappingErrorMessage "" "Q7"⟩), []) ∧
    SyncWdBot.sync_wd_with_factgrid_id envWriteFail "" "Q7" false
      = (Except.ok (some ⟨"", "Q7", mappingErrorMessage "" "Q7"⟩), []) :=
  sync_wd_with_factgrid_id_empty_id_guard envWriteFail "" "Q7" false none (Or.inr rfl)

/-- C7 counterexample: the factgridsyncwdbot implementation does not accept a
caller-specified max_retries at all: a call specifying it raises TypeError
instead of silently ignoring the value and behaving as if unspecified. -/
theorem syncwdbot_does_not_accept_max_retries :
    SyncWdBot.call_sync_wd_with_factgrid_id envWriteFail "Q1" "Q7" false (some (some 3))
      ≠ SyncWdBot.call_sync_wd_with_factgrid_id envWriteFail "Q1" "Q7" false none := by
  simp [SyncWdBot.call_sync_wd_with_factgrid_id]

/-- C7 amended: only the factgridbot implementation accepts max_retries and
threads it through to write_item; the factgridsyncwdbot implementation has no
such parameter (specifying it raises TypeError), and the two are behaviourally
equivalent exactly when max_retries is left unspecified. -/
theorem max_retries_threading_divergence :
    (∀ env w f fix, Bot.call_sync_wd_with_factgrid_id env w f fix none
        = SyncWdBot.call_sync_wd_with_factgrid_id env w f fix none) ∧
    (∃ env : SyncEnv, ∃ n : Nat,
      Bot.call_sync_wd_with_factgrid_id env "Q1" "Q7" false (some (some n))
        ≠ SyncWdBot.call_sync_wd_with_factgrid_id env "Q1" "Q7" false none) ∧
    (∀ env w f fix mr,
      SyncWdBot.call_sync_wd_with_factgrid_id env w f fix (some mr)
        = Except.error
          "TypeError: _sync_wd_with_factgrid_id() got an unexpected keyword argument max_retries") := by
  refine ⟨fun env w f fix => rfl, ⟨envRetrySensitive, 3, ?_⟩, fun env w f fix mr => rfl⟩
  simp [Bot.call_sync_wd_with_factgrid_id, SyncWdBot.call_sync_wd_with_factgrid_id,
    Bot.sync_wd_with_factgrid_id, SyncWdBot.sync_wd_with_factgrid_id, envRetrySensitive]

/-- Concatenating the chunks of a list gives back the list (chunk size > 0). -/
theorem chunkList_flatten {α : Type} (c : Nat) (hc : 0 < c) (xs : List α) :
    (chunkList c xs).flatten = xs := by
  generalize hn : xs.length = n
  induction n using Nat.strong_induction_on generalizing xs with
  | _ n ih =>
    rcases xs with _ | ⟨x, rest⟩
    · simp [chunkList]
    · rw [chunkList, dif_neg (Nat.pos_iff_ne_zero.mp hc)]
      rw [List.flatten_cons]
      rw [ih (((x :: rest).drop c).length) ?_ ((x :: rest).drop c) rfl]
      · exact List.take_append_drop c (x :: rest)
      · subst hn
        simp only [List.length_drop, List.length_cons]
        omega

/-- Every chunk holds at most c values. -/
theorem chunkList_length_le {α : Type} (c : Nat) (hc : 0 < c) (xs : List α) :
    ∀ ch ∈ chunkList c xs, ch.length ≤ c := by
  generalize hn : xs.length = n
  induction n using Nat.strong_induction_on generalizing xs with
  | _ n ih =>
    rcases xs with _ | ⟨x, rest⟩
    · simp [chunkList]
    · rw [chunkList, dif_neg (Nat.pos_iff_ne_zero.mp hc)]
      intro ch hch
      rcases List.mem_cons.mp hch with h | h
      · subst h; exact List.length_take_le c (x :: rest)
      · refine ih (((x :: rest).drop c).length) ?_ ((x :: rest).drop c) rfl ch h
        subst hn
        simp only [List.length_drop, List.length_cons]
        omega

/-- Flattening per-chunk query answers is querying the flattened chunks. -/
theorem flatten_map_runValuesQuery (ep : ValuesQueryEndpoint) (ls : List (List String)) :
    (ls.map (fun ch => runValuesQuery ep ch)).flatten = runValuesQuery ep ls.flatten := by
  induction ls with
  | nil => rfl
  | cons ch rest ih =>
    rw [List.map_cons, List.flatten_cons, ih, List.flatten_cons]
    simp [runValuesQuery, List.flatMap_append]

/-- C6: for every chunk size c > 0, chunked batch querying splits the values
into consecutive chunks of at most c, issues one query per chunk with that
chunk substituted for the template's named parameter, and the concatenated
rows equal, as a multiset (indeed as a list), the answer of a single
unchunked query over all values. -/
theorem execute_values_query_in_chunks_eq_unchunked
    (ep : ValuesQueryEndpoint) (query_template param_name : String)
    (values : List String) (c : Nat) (hc : 0 < c) :
    (∀ ch ∈ chunkList c values, ch.length ≤ c) ∧
    (chunkList c values).flatten = values ∧
    (execute_values_query_in_chunks ep query_template param_name values c).1
      = (chunkList c values).map (substituteValues query_template param_name) ∧
    ((execute_values_query_in_chunks ep query_template param_name values c).2 :
        Multiset SparqlRow)
      = (runValuesQuery ep values : Multiset SparqlRow) := by
  refine ⟨chunkList_length_le c hc values, chunkList_flatten c hc values, rfl, ?_⟩
  have : (execute_values_query_in_chunks ep query_template param_name values c).2
      = runValuesQuery ep values := by
    show ((chunkList c values).map (fun ch => runValuesQuery ep ch)).flatten = _
    rw [flatten_map_runValuesQuery, chunkList_flatten c hc values]
  rw [this]

/-- Witness for C6: chunk size 2 over three values. -/
theorem execute_values_query_in_chunks_eq_unchunked_witness :
    0 < 2 ∧
    ((∀ ch ∈ chunkList 2 ["a", "b", "c"], ch.length ≤ 2) ∧
    (chunkList 2 ["a", "b", "c"]).flatten = ["a", "b", "c"] ∧
    (execute_values_query_in_chunks epOneRow "SELECT $wd_ids" "wd_ids" ["a", "b", "c"] 2).1
      = (chunkList 2 ["a", "b", "c"]).map (substituteValues "SELECT $wd_ids" "wd_ids") ∧
    ((execute_values_query_in_chunks epOneRow "SELECT $wd_ids" "wd_ids" ["a", "b", "c"] 2).2 :
        Multiset SparqlRow)
      = (runValuesQuery epOneRow ["a", "b", "c"] : Multiset SparqlRow)) :=
  ⟨by decide,
   execute_values_query_in_chunks_eq_unchunked epOneRow "SELECT $wd_ids" "wd_ids"
     ["a", "b", "c"] 2 (by decide)⟩

/-- Replacing old at the very front of old ++ tail replaces that occurrence
and continues in tail. -/
theorem replaceAll_append_head (old new tail : List Char) (h : old ≠ []) :
    replaceAll old new (old ++ tail) = new ++ replaceAll old new tail := by
  rcases hold : old with _ | ⟨o, os⟩
  · exact absurd hold h
  · have hpre : (o :: os) <+: ((o :: os) ++ tail) := ⟨tail, rfl⟩
    rw [List.cons_append, replaceAll,
      dif_pos ⟨by simp, by rw [← List.cons_append]; exact hpre⟩]
    congr 1
    rw [← List.cons_append, List.length_cons]
    show replaceAll (o :: os) new (((o :: os) ++ tail).drop (o :: os).length) = _
    rw [List.drop_left]

/-- A string not containing old is left unchanged. -/
theorem replaceAll_of_not_contains (old new s : List Char)
    (h : ¬ List.IsInfix old s) : replaceAll old new s = s := by
  induction s with
  | nil => rw [replaceAll]
  | cons c rest ih =>
    rw [replaceAll, dif_neg ?_]
    · rw [ih ?_]
      rintro ⟨s1, s2, hs⟩
      exact h ⟨c :: s1, s2, by simp only [List.cons_append]; rw [hs]⟩
    · rintro ⟨hne, t, ht⟩
      exact h ⟨[], t, by simpa using ht⟩

/-- C10: on identifiers whose remainder after the base contains neither the
wiki page base nor the entity URI base as a substring, the two prefix
substitution translations are mutually inverse. -/
theorem sitelink_entity_id_round_trip (rest : List Char)
    (h1 : ¬ List.IsInfix wikiPageBase rest)
    (h2 : ¬ List.IsInfix wdEntityBase rest) :
    get_wikidata_sitelink_from_entity_id
        (get_wikidata_entity_id_from_sitelink (wikiPageBase ++ rest))
      = wikiPageBase ++ rest ∧
    get_wikidata_entity_id_from_sitelink
        (get_wikidata_sitelink_from_entity_id (wdEntityBase ++ rest))
      = wdEntityBase ++ rest := by
  have hw : wikiPageBase ≠ [] := by decide
  have he : wdEntityBase ≠ [] := by decide
  constructor
  · rw [get_wikidata_entity_id_from_sitelink, replaceAll_append_head _ _ _ hw,
      replaceAll_of_not_contains _ _ _ h1,
      get_wikidata_sitelink_from_entity_id, replaceAll_append_head _ _ _ he,
      replaceAll_of_not_contains _ _ _ h2]
  · rw [get_wikidata_sitelink_from_entity_id, replaceAll_append_head _ _ _ he,
      replaceAll_of_not_contains _ _ _ h2,
      get_wikidata_entity_id_from_sitelink, replaceAll_append_head _ _ _ hw,
      replaceAll_of_not_contains _ _ _ h1]

/-- Witness for C10: the round trips at the page of entity Q42. -/
theorem sitelink_entity_id_round_trip_witness :
    get_wikidata_sitelink_from_entity_id
        (get_wikidata_entity_id_from_sitelink (wikiPageBase ++ "Q42".data))
      = wikiPageBase ++ "Q42".data ∧
    get_wikidata_entity_id_from_sitelink
        (get_wikidata_sitelink_from_entity_id (wdEntityBase ++ "Q42".data))
      = wdEntityBase ++ "Q42".data :=
  sitelink_entity_id_round_trip "Q42".data (by decide) (by decide)

/-- Inserting into a group changes exactly the looked-up list of that label. -/
theorem lookupGroup_insertGrouped (acc : List (String × List String))
    (l' i l : String) :
    lookupGroup (insertGrouped acc l' i) l
      = if l' = l then lookupGroup acc l ++ [i] else lookupGroup acc l := by
  induction acc with
  | nil =>
    by_cases h : l' = l <;> simp [insertGrouped, lookupGroup, h]
  | cons g rest ih =>
    obtain ⟨k, is⟩ := g
    by_cases hk : k = l'
    · subst hk
      by_cases hl : k = l
      · subst hl
        simp [insertGrouped, lookupGroup]
      · simp [insertGrouped, lookupGroup, hl]
    · by_cases hkl : k = l
      · have hne : ¬ l' = l := fun h => hk (hkl.trans h.symm)
        have hne' : ¬ l = l' := fun h => hne h.symm
        simp [insertGrouped, lookupGroup, hk, hkl, hne, hne']
      · simp [insertGrouped, lookupGroup, hk, hkl, ih]

/-- Folding the grouping step appends each label's matching ids. -/
theorem lookupGroup_foldl (ps : List (String × String))
    (acc : List (String × List String)) (l : String) :
    lookupGroup (ps.foldl (fun acc p => insertGrouped acc p.2 p.1) acc) l
      = lookupGroup acc l ++ (ps.filter (fun p => p.2 = l)).map Prod.fst := by
  induction ps generalizing acc with
  | nil => simp
  | cons p rest ih =>
    obtain ⟨i, l'⟩ := p
    rw [List.foldl_cons, ih, lookupGroup_insertGrouped]
    by_cases h : l' = l
    · subst h
      simp [List.filter_cons]
    · simp [List.filter_cons, h]

/-- The group of a label holds exactly the ids paired with that label. -/
theorem lookupGroup_groupByLabel (ps : List (String × String)) (l : String) :
    lookupGroup (groupByLabel ps) l = (ps.filter (fun p => p.2 = l)).map Prod.fst := by
  have := lookupGroup_foldl ps [] l
  simpa [lookupGroup] using this

/-- Inserting only ever adds the inserted label as a key, at the end. -/
theorem keys_insertGrouped (acc : List (String × List String)) (l i : String) :
    (insertGrouped acc l i).map Prod.fst
      = if l ∈ acc.map Prod.fst then acc.map Prod.fst
        else acc.map Prod.fst ++ [l] := by
  induction acc with
  | nil => simp [insertGrouped]
  | cons g rest ih =>
    obtain ⟨k, is⟩ := g
    by_cases hk : k = l
    · subst hk
      simp [insertGrouped]
    · have hne : ¬ l = k := fun h => hk h.symm
      by_cases hmem : l ∈ rest.map Prod.fst <;>
        simp [insertGrouped, hk, hne, hmem, ih]

/-- Membership in the keys after an insertion. -/
theorem mem_keys_insertGrouped (acc : List (String × List String)) (l i k : String) :
    k ∈ (insertGrouped acc l i).map Prod.fst
      ↔ k ∈ acc.map Prod.fst ∨ k = l := by
  rw [keys_insertGrouped]
  by_cases hmem : l ∈ acc.map Prod.fst
  · simp only [hmem, if_true]
    constructor
    · exact fun h => Or.inl h
    · rintro (h | rfl)
      · exact h
      · exact hmem
  · simp [hmem]

/-- The keys of the grouping over an accumulator. -/
theorem mem_keys_foldl (ps : List (String × String))
    (acc : List (String × List String)) (k : String) :
    k ∈ (ps.foldl (fun acc p => insertGrouped acc p.2 p.1) acc).map Prod.fst
      ↔ k ∈ acc.map Prod.fst ∨ k ∈ ps.map Prod.snd := by
  induction ps generalizing acc with
  | nil => simp
  | cons p rest ih =>
    obtain ⟨i, l'⟩ := p
    rw [List.foldl_cons, ih, mem_keys_insertGrouped]
    simp only [List.map_cons, List.mem_cons]
    tauto

/-- A label is a key of the grouping exactly when it labels some pair. -/
theorem mem_keys_groupByLabel (ps : List (String × String)) (k : String) :
    k ∈ (groupByLabel ps).map Prod.fst ↔ k ∈ ps.map Prod.snd := by
  have := mem_keys_foldl ps [] k
  simpa using this

/-- The keys of the grouping are pairwise distinct. -/
theorem keys_groupByLabel_nodup (ps : List (String × String)) :
    ((groupByLabel ps).map Prod.fst).Nodup := by
  have aux : ∀ acc : List (String × List String), (acc.map Prod.fst).Nodup →
      ((ps.foldl (fun acc p => insertGrouped acc p.2 p.1) acc).map Prod.fst).Nodup := by
    induction ps with
    | nil => exact fun acc h => h
    | cons p rest ih =>
      intro acc hacc
      rw [List.foldl_cons]
      apply ih
      rw [keys_insertGrouped]
      by_cases hmem : p.2 ∈ acc.map Prod.fst
      · simpa [hmem] using hacc
      · simp only [hmem, if_false]
        simp [List.nodup_append, hacc, hmem]
  exact aux [] (by simp)

/-- Extending the keys by a different label does not change the count. -/
theorem if_mem_cons_ne {a b : String} (keys : List String) (P : Prop) [Decidable P]
    (hne : ¬ a = b) :
    (if a ∈ b :: keys ∧ P then 1 else 0) = if a ∈ keys ∧ P then 1 else 0 := by
  have h : (a ∈ b :: keys ∧ P) ↔ (a ∈ keys ∧ P) := by
    simp [List.mem_cons, hne]
  rw [if_congr h rfl rfl]

/-- Counting the kept triples carrying a given label: with pairwise distinct
keys there is exactly one when the label is a key whose factgrid group is
nonempty, and none otherwise. -/
theorem count_kept_triples (ltf gs : List (String × List String)) (l : String)
    (hnd : (gs.map Prod.fst).Nodup) :
    ((gs.filterMap (fun lw =>
        match lookupGroup ltf lw.1 with
        | [] => none
        | fgIds => some (lw.1, lw.2, fgIds))).filter (fun t => t.1 = l)).length
      = if l ∈ gs.map Prod.fst ∧ lookupGroup ltf l ≠ [] then 1 else 0 := by
  induction gs with
  | nil => simp
  | cons g gs' ih =>
    rw [List.map_cons, List.nodup_cons] at hnd
    obtain ⟨hg, hnd'⟩ := hnd
    rw [List.filterMap_cons]
    rcases hlk : lookupGroup ltf g.1 with _ | ⟨x, xs⟩
    · rw [ih hnd']
      by_cases hgl : g.1 = l
      · rw [hgl] at hlk
        simp [hlk]
      · have hne : ¬ l = g.1 := fun h => hgl h.symm
        simp only [List.map_cons]
        rw [if_mem_cons_ne _ _ hne]
    · rw [List.filter_cons]
      by_cases hgl : g.1 = l
      · rw [hgl] at hlk
        have hnot : l ∉ List.map Prod.fst gs' := hgl ▸ hg
        simp [hgl, hlk, hnot, ih hnd']
      · have hne : ¬ l = g.1 := fun h => hgl h.symm
        simp [hgl, hne, ih hnd']
        rw [if_mem_cons_ne _ _ hne]

/-- A label labels some filtered pair exactly when its group is nonempty. -/
theorem filter_map_fst_ne_nil_iff (ps : List (String × String)) (l : String) :
    (ps.filter (fun p => p.2 = l)).map Prod.fst ≠ [] ↔ l ∈ ps.map Prod.snd := by
  simp only [ne_eq, List.map_eq_nil_iff, List.filter_eq_nil_iff, List.mem_map,
    decide_eq_true_eq, not_forall]
  constructor
  · rintro ⟨a, ha, hal⟩
    exact ⟨a, ha, by simpa using hal⟩
  · rintro ⟨a, ha, hal⟩
    exact ⟨a, ha, by simpa using hal⟩

/-- Membership in the labels of the label-filtered class items. -/
theorem mem_map_snd_filter_mem (ps : List (String × String))
    (labels : List String) (l : String) :
    l ∈ (ps.filter (fun p => p.2 ∈ labels)).map Prod.snd
      ↔ l ∈ ps.map Prod.snd ∧ l ∈ labels := by
  simp only [List.mem_map, List.mem_filter, decide_eq_true_eq]
  constructor
  · rintro ⟨a, ⟨ha, hmem⟩, rfl⟩
    exact ⟨⟨a, ha, rfl⟩, hmem⟩
  · rintro ⟨⟨a, ha, rfl⟩, hmem⟩
    exact ⟨a, ⟨ha, hmem⟩, rfl⟩

/-- C8: get_label_matches_by_entity_class returns exactly one triple for every
label occurring both among the source-A items missing a cross-reference and
among the source-B items of the corresponding class, and no triple for a
label present on only one side; in particular, with labels Smith and Jones on
the A side and Smith only on the B side, exactly the one triple for Smith is
returned. -/
theorem get_label_matches_exactly_shared_labels :
    (∀ (env : LabelMatchEnv) (l : String),
      ((get_label_matches_by_entity_class env).filter (fun t => t.1 = l)).length
        = if l ∈ env.factgridLabels.map Prod.snd ∧
             l ∈ env.wikidataClassItems.map Prod.snd
          then 1 else 0) ∧
    get_label_matches_by_entity_class envSmithJones
      = [("Smith", ["WQ1"], ["FQ1"])] := by
  constructor
  · intro env l
    simp only [get_label_matches_by_entity_class]
    rw [count_kept_triples _ _ _ (keys_groupByLabel_nodup _)]
    have hcond : (l ∈ (groupByLabel (get_entities_by_labels env.wikidataClassItems
            (env.factgridLabels.map Prod.snd))).map Prod.fst ∧
          lookupGroup (groupByLabel env.factgridLabels) l ≠ [])
        ↔ (l ∈ env.factgridLabels.map Prod.snd ∧
           l ∈ env.wikidataClassItems.map Prod.snd) := by
      rw [mem_keys_groupByLabel, lookupGroup_groupByLabel,
        filter_map_fst_ne_nil_iff, get_entities_by_labels, mem_map_snd_filter_mem]
      tauto
    rw [if_congr hcond rfl rfl]
  · decide

end FactGridBot
